import Mathlib

/-!
Verification of the SDFS frontend core (data_handler.js, map_visualization.js,
main.js) via a shallow embedding in Lean.  Machine numbers that the claims
depend on are modelled as exact rationals (coordinates) and integers
(timestamps in milliseconds); the asynchronous network boundary is modelled by
passing the backend response as an explicit argument, and the mutable class
state is modelled by explicit state passing.
-/

namespace SDFS

/-! ## Shared data model (shapes of the backend payload) -/

/-- One AIS or ADS-B record as consumed by the frontend: the fields the core
logic actually branches on.  Coordinates are exact rationals, the timestamp is
epoch milliseconds (none when the field is absent), and data_status is the raw
string (none when the field is absent). -/
structure DataPoint where
  latitude : ℚ
  longitude : ℚ
  timestamp : Option Int
  data_status : Option String
deriving DecidableEq, Repr

/-- One coverage layer from the backend: its data_type tag and its boundary as
a list of (lon, lat) pairs, mirroring the coordinates array. -/
structure CoverageLayer where
  data_type : String
  coordinates : List (ℚ × ℚ)
deriving DecidableEq, Repr

/-- The processed-data bundle stored by DataHandler.loadData on success
(response.data.data). -/
structure ProcessedData where
  ais_data : List DataPoint
  adsb_data : List DataPoint
  coverage_layers : List CoverageLayer
deriving DecidableEq, Repr

/-! ## DataHandler (data_handler.js) -/

/-- Mutable fields of the DataHandler class (constructor, lines 3-8). -/
structure DHState where
  processedData : Option ProcessedData
  lastUpdate : Option String
  isProcessing : Bool
deriving DecidableEq, Repr

/-- Outcome of the GET /api/data request awaited inside loadData: the backend
answered success:true with a payload, answered success:false (which the code
turns into a thrown error), or axios threw (network error / 30s timeout). -/
inductive FetchOutcome
  | ok (data : ProcessedData) (last_update : String)
  | serverFail
  | netError
deriving DecidableEq, Repr

/-- True when the fetch outcome is not a success:true payload. -/
def FetchOutcome.failed : FetchOutcome → Bool
  | .ok _ _ => false
  | .serverFail => true
  | .netError => true

/-- Shape of the value loadData resolves with: the busy early-return, the
success object, or the catch-branch failure object. -/
inductive LoadOutcome
  | busy
  | loaded
  | failed
deriving DecidableEq, Repr

/-- Result of one loadData call: the resolved outcome, whether the network
fetch was actually issued, and the DataHandler state after the call. -/
structure LoadStep where
  result : LoadOutcome
  didFetch : Bool
  state : DHState
deriving DecidableEq, Repr

/-- DataHandler.loadData (data_handler.js lines 24-66), as one run-to-completion
step given the response of the single awaited GET /api/data.  If isProcessing
is set, it returns the busy failure object at once, issuing no fetch and
touching no state.  Otherwise the fetch is issued; on success:true the payload
and last_update are stored, on any failure the catch branch leaves them
untouched, and the finally branch clears isProcessing on every path. -/
def loadData (st : DHState) (resp : FetchOutcome) : LoadStep :=
  if st.isProcessing then
    ⟨LoadOutcome.busy, false, st⟩
  else
    match resp with
    | .ok d lu =>
        ⟨LoadOutcome.loaded, true,
          { processedData := some d, lastUpdate := some lu, isProcessing := false }⟩
    | .serverFail =>
        ⟨LoadOutcome.failed, true, { st with isProcessing := false }⟩
    | .netError =>
        ⟨LoadOutcome.failed, true, { st with isProcessing := false }⟩

/-- DataHandler.isDataPointOnline (data_handler.js lines 166-174): a falsy
timestamp returns false; otherwise the age in hours is (now - t) / 3600000 and
the point is online iff that is strictly below 24. -/
def isDataPointOnline (timestamp : Option Int) (nowMs : Int) : Bool :=
  match timestamp with
  | none => false
  | some t => decide ((((nowMs - t : Int) : ℚ) / (1000 * 60 * 60)) < 24)

/-- Status label chosen by DataHandler.formatDataPointInfo (lines 186-195):
normal and warning are matched literally, everything else falls through to the
error label. -/
def formatStatusLabel (data_status : Option String) : String :=
  if data_status = some "normal" then "正常"
  else if data_status = some "warning" then "待复核"
  else "错误"

/-- Marker color chosen by MapVisualization.createAisMarker (lines 74-79):
error and warning are matched literally, everything else falls through to the
normal-data branch whose color depends only on the online flag. -/
def aisMarkerColor (data_status : Option String) (isOnline : Bool) : String :=
  if data_status = some "error" then "#ff0000"
  else if data_status = some "warning" then "#ff9900"
  else if isOnline then "#3498db" else "#95a5a6"

/-- Marker color chosen by MapVisualization.createAdsbMarker (lines 149-154):
same branch order as the AIS marker with a different online base color. -/
def adsbMarkerColor (data_status : Option String) (isOnline : Bool) : String :=
  if data_status = some "error" then "#ff0000"
  else if data_status = some "warning" then "#ff9900"
  else if isOnline then "#e74c3c" else "#95a5a6"

/-! ## checkBackendAndLoadData (main.js lines 22-138) -/

/-- Network requests issued by checkBackendAndLoadData, in order. -/
inductive NetEvent
  | healthCheck
  | systemInfo
  | fetchData (force : Bool)
  | statsFetch
  | cacheClear
deriving DecidableEq, Repr

/-- Backend behaviour for one run of checkBackendAndLoadData: the health
probe answer, the outcome of the first data fetch, whether the POST
/api/data/cache/clear succeeds, and the outcome of the retry fetch. -/
structure Backend where
  healthy : Bool
  fetch1 : FetchOutcome
  cacheClearOk : Bool
  fetch2 : FetchOutcome
deriving DecidableEq, Repr

/-- Number of cache-clear requests in a trace. -/
def countCacheClear : List NetEvent → Nat
  | [] => 0
  | NetEvent.cacheClear :: rest => countCacheClear rest + 1
  | _ :: rest => countCacheClear rest

/-- Number of data fetches in a trace. -/
def countFetches : List NetEvent → Nat
  | [] => 0
  | NetEvent.fetchData _ :: rest => countFetches rest + 1
  | _ :: rest => countFetches rest

/-- checkBackendAndLoadData (main.js lines 22-138): health probe first (an
unhealthy backend aborts the run); then the system-info request, then
loadData(true).  On a success result it fetches the display stats.  On any
failure result it issues one POST /api/data/cache/clear and, if that request
succeeds, exactly one retry loadData(true); a failing cache-clear request is
caught and ends the run.  Returns the ordered trace of network requests and
the final DataHandler state. -/
def checkBackendAndLoadData (st : DHState) (b : Backend) : List NetEvent × DHState :=
  if b.healthy = false then
    ([NetEvent.healthCheck], st)
  else
    let step1 := loadData st b.fetch1
    let pre := [NetEvent.healthCheck, NetEvent.systemInfo] ++
      (if step1.didFetch then [NetEvent.fetchData true] else [])
    if step1.result = LoadOutcome.loaded then
      (pre ++ [NetEvent.statsFetch], step1.state)
    else
      if b.cacheClearOk then
        let step2 := loadData step1.state b.fetch2
        (pre ++ [NetEvent.cacheClear] ++
          (if step2.didFetch then [NetEvent.fetchData true] else []), step2.state)
      else
        (pre ++ [NetEvent.cacheClear], step1.state)

/-! ## MapVisualization (map_visualization.js) -/

/-- Key of an owned rendered entity.  The source keys its three JS Maps with
the strings ais_i, adsb_i and coverage_i; the constructor-based key carries
the same information with distinctness for free. -/
inductive EntityKey
  | ais (i : Nat)
  | adsb (i : Nat)
  | coverage (i : Nat)
deriving DecidableEq, Repr

/-- Surveillance category, matching the three filter checkboxes. -/
inductive Category
  | ais
  | adsb
  | coverage
deriving DecidableEq, Repr

/-- Category of an entity key. -/
def keyCategory : EntityKey → Category
  | .ais _ => Category.ais
  | .adsb _ => Category.adsb
  | .coverage _ => Category.coverage

/-- State of the three filter checkboxes read by shouldShowAis,
shouldShowAdsb and shouldShowCoverage. -/
structure Filters where
  ais : Bool
  adsb : Bool
  coverage : Bool
deriving DecidableEq, Repr

/-- Read one checkbox. -/
def Filters.get : Filters → Category → Bool
  | f, .ais => f.ais
  | f, .adsb => f.adsb
  | f, .coverage => f.coverage

/-- Write one checkbox. -/
def Filters.set : Filters → Category → Bool → Filters
  | f, .ais, v => { f with ais := v }
  | f, .adsb, v => { f with adsb := v }
  | f, .coverage, v => { f with coverage := v }

/-- A Leaflet point marker as far as the core logic observes it: the latlng
it was constructed with (L.marker([lat, lng])) and later returns from
getLatLng(). -/
structure Marker where
  latlng : ℚ × ℚ
deriving DecidableEq, Repr

/-- A Leaflet polygon as far as the core logic observes it: the latLngs it
was constructed with. -/
structure Polygon where
  latLngs : List (ℚ × ℚ)
deriving DecidableEq, Repr

/-- A latitude/longitude bounding box (L.latLngBounds). -/
structure Bounds where
  minLat : ℚ
  maxLat : ℚ
  minLng : ℚ
  maxLng : ℚ
deriving DecidableEq, Repr

/-- The map camera: either an explicit center/zoom set through setView, or a
framing of a bounding box with padding set through fitBounds. -/
inductive Camera
  | view (center : ℚ × ℚ) (zoom : Int)
  | fitted (b : Bounds) (padding : Nat)
deriving DecidableEq, Repr

/-- Center of the current camera (the fitted case frames the box center). -/
def cameraCenter : Camera → ℚ × ℚ
  | .view c _ => c
  | .fitted b _ => ((b.minLat + b.maxLat) / 2, (b.minLng + b.maxLng) / 2)

/-- Mutable fields of the MapVisualization class that the core logic reads
and writes: the three owned-entity collections, the attachment sets of the
two layer groups, the currentZoom cell, the mapCenter cell and the camera. -/
@[ext]
structure MapVizState where
  aisMarkers : List Marker
  adsbMarkers : List Marker
  coveragePolygons : List (Nat × Polygon)
  markersAttached : Finset EntityKey
  coverageAttached : Finset EntityKey
  currentZoom : Int
  mapCenter : ℚ × ℚ
  camera : Camera
deriving DecidableEq

/-- Keys ais_0 .. ais_(n-1) of n owned AIS markers. -/
def aisKeySet (n : Nat) : Finset EntityKey := (Finset.range n).image EntityKey.ais

/-- Keys adsb_0 .. adsb_(n-1) of n owned ADS-B markers. -/
def adsbKeySet (n : Nat) : Finset EntityKey := (Finset.range n).image EntityKey.adsb

/-- Keys coverage_i of an owned polygon list (the stored index is the index
of the layer in the snapshot, so the key list may be sparse). -/
def covKeyList (entries : List (Nat × Polygon)) : List EntityKey :=
  entries.map fun p => EntityKey.coverage p.1

/-- State created by the MapVisualization constructor (lines 3-12) followed by
initializeMap (lines 15-65): no owned entities, empty layer groups,
currentZoom 8, mapCenter Beijing, and the camera set from those two cells. -/
def initializeMap : MapVizState where
  aisMarkers := []
  adsbMarkers := []
  coveragePolygons := []
  markersAttached := ∅
  coverageAttached := ∅
  currentZoom := 8
  mapCenter := (399042 / 10000, 1164074 / 10000)
  camera := Camera.view (399042 / 10000, 1164074 / 10000) 8

/-- MapVisualization.createAisMarker (lines 69-142), as observed by the state
model: an L.marker at [latitude, longitude].  Its icon color is modelled
separately by aisMarkerColor. -/
def createAisMarker (r : DataPoint) : Marker := ⟨(r.latitude, r.longitude)⟩

/-- MapVisualization.createAdsbMarker (lines 144-229), as observed by the
state model: an L.marker at [latitude, longitude]. -/
def createAdsbMarker (r : DataPoint) : Marker := ⟨(r.latitude, r.longitude)⟩

/-- MapVisualization.createCoverageLayer (lines 400-429): a coordinates array
with fewer than 3 points yields null; otherwise an L.polygon over the
coordinates with lon/lat swapped to lat/lng. -/
def createCoverageLayer (c : CoverageLayer) : Option Polygon :=
  if c.coordinates.length < 3 then none
  else some ⟨c.coordinates.map fun q => (q.2, q.1)⟩

/-- The coverageLayers.forEach loop body of updateMapData (lines 515-526)
starting at index i: each layer accepted by createCoverageLayer is stored
under its snapshot index. -/
def coverageEntriesFrom : Nat → List CoverageLayer → List (Nat × Polygon)
  | _, [] => []
  | i, c :: rest =>
    match createCoverageLayer c with
    | some poly => (i, poly) :: coverageEntriesFrom (i + 1) rest
    | none => coverageEntriesFrom (i + 1) rest

/-- MapVisualization.clearMap (lines 537-549): every owned marker and polygon
is removed from its layer group, then the three collections are emptied. -/
def clearMap (st : MapVizState) : MapVizState :=
  { st with
    markersAttached :=
      st.markersAttached \
        (aisKeySet st.aisMarkers.length ∪ adsbKeySet st.adsbMarkers.length),
    coverageAttached := st.coverageAttached \ (covKeyList st.coveragePolygons).toFinset,
    aisMarkers := [], adsbMarkers := [], coveragePolygons := [] }

/-- Fold step of L.latLngBounds: extend a box by one point. -/
def boundsExtend (b : Bounds) (p : ℚ × ℚ) : Bounds :=
  ⟨min b.minLat p.1, max b.maxLat p.1, min b.minLng p.2, max b.maxLng p.2⟩

/-- L.latLngBounds over a point list: none for the empty list (the code skips
the fit in that case), otherwise the min/max box of the points. -/
def latLngBounds : List (ℚ × ℚ) → Option Bounds
  | [] => none
  | p :: ps => some (ps.foldl boundsExtend ⟨p.1, p.1, p.2, p.2⟩)

/-- The bounds array collected by fitMapToBounds (lines 553-562): the latlngs
of every owned AIS marker followed by every owned ADS-B marker, whether or
not they are currently attached; coverage polygons are never consulted. -/
def markerLatLngs (st : MapVizState) : List (ℚ × ℚ) :=
  st.aisMarkers.map Marker.latlng ++ st.adsbMarkers.map Marker.latlng

/-- MapVisualization.fitMapToBounds (lines 552-569): collect the owned marker
positions; when the list is nonempty, frame their bounding box with padding
50, otherwise do nothing. -/
def fitMapToBounds (st : MapVizState) : MapVizState :=
  match latLngBounds (markerLatLngs st) with
  | none => st
  | some b => { st with camera := Camera.fitted b 50 }

/-- MapVisualization.resetView (lines 572-575): setView(this.mapCenter,
this.currentZoom). -/
def resetView (st : MapVizState) : MapVizState :=
  { st with camera := Camera.view st.mapCenter st.currentZoom }

/-- A zoom interaction ending at level z: the camera zoom changes and the
zoomend listener installed by initializeMap (lines 59-61) stores
map.getZoom() into this.currentZoom. -/
def zoomTo (st : MapVizState) (z : Int) : MapVizState :=
  { st with camera := Camera.view (cameraCenter st.camera) z, currentZoom := z }

/-- MapVisualization.updateMapData (lines 484-534): clearMap, then, per
category whose filter is checked, create a marker for every record (keyed by
its index) or a polygon for every coverage layer accepted by
createCoverageLayer, attaching each to its layer group; finally, if any
point marker is owned, fitMapToBounds. -/
def updateMapData (st : MapVizState) (f : Filters)
    (aisData adsbData : List DataPoint) (coverageData : List CoverageLayer) :
    MapVizState :=
  let s0 := clearMap st
  let s1 :=
    if f.ais then
      { s0 with
        aisMarkers := aisData.map createAisMarker,
        markersAttached := s0.markersAttached ∪ aisKeySet aisData.length }
    else s0
  let s2 :=
    if f.adsb then
      { s1 with
        adsbMarkers := adsbData.map createAdsbMarker,
        markersAttached := s1.markersAttached ∪ adsbKeySet adsbData.length }
    else s1
  let s3 :=
    if f.coverage then
      let entries := coverageEntriesFrom 0 coverageData
      { s2 with
        coveragePolygons := entries,
        coverageAttached := s2.coverageAttached ∪ (covKeyList entries).toFinset }
    else s2
  if 0 < s3.aisMarkers.length ∨ 0 < s3.adsbMarkers.length then fitMapToBounds s3 else s3

/-- MapVisualization.updateVisibility (lines 591-620): every owned AIS marker
is added to (or removed from) the markers layer according to the AIS
checkbox, likewise for ADS-B markers and for coverage polygons; the owned
collections themselves are not touched. -/
def updateVisibility (st : MapVizState) (f : Filters) : MapVizState :=
  let aK := aisKeySet st.aisMarkers.length
  let bK := adsbKeySet st.adsbMarkers.length
  let cK := (covKeyList st.coveragePolygons).toFinset
  let m1 := if f.ais then st.markersAttached ∪ aK else st.markersAttached \ aK
  let m2 := if f.adsb then m1 ∪ bK else m1 \ bK
  let c2 := if f.coverage then st.coverageAttached ∪ cK else st.coverageAttached \ cK
  { st with markersAttached := m2, coverageAttached := c2 }

/-- Number of entities currently attached to the two layer groups. -/
def renderedCount (st : MapVizState) : Nat :=
  st.markersAttached.card + st.coverageAttached.card

/-- Attached entities of one category. -/
def attachedOfCategory (st : MapVizState) (c : Category) : Finset EntityKey :=
  (st.markersAttached ∪ st.coverageAttached).filter fun k => keyCategory k = c

/-- Number of owned entities of one category. -/
def ownedCount (st : MapVizState) : Category → Nat
  | .ais => st.aisMarkers.length
  | .adsb => st.adsbMarkers.length
  | .coverage => st.coveragePolygons.length

/-- Attachment sets are inside the owned key sets: true of every state the
class can reach, and the precondition under which updateMapData is analysed. -/
def wellFormed (st : MapVizState) : Prop :=
  st.markersAttached ⊆ aisKeySet st.aisMarkers.length ∪ adsbKeySet st.adsbMarkers.length ∧
  st.coverageAttached ⊆ (covKeyList st.coveragePolygons).toFinset

/-! ## Claim-side definitions (for refinement comparison) and concrete inputs -/

/-- Validity of a record in the words of claim C2: coordinates finite (always
true of a rational) and within geodetic range. -/
def specValidRecord (r : DataPoint) : Bool :=
  decide (-90 ≤ r.latitude ∧ r.latitude ≤ 90 ∧ -180 ≤ r.longitude ∧ r.longitude ≤ 180)

/-- Rendered-entity count predicted by claim C2: valid records whose category
flag is true plus valid regions whose flag is true. -/
def specExpectedCount (f : Filters) (aisData adsbData : List DataPoint)
    (coverageData : List CoverageLayer) : Nat :=
  (if f.ais then (aisData.filter specValidRecord).length else 0) +
  (if f.adsb then (adsbData.filter specValidRecord).length else 0) +
  (if f.coverage then
    (coverageData.filter fun c => decide (3 ≤ c.coordinates.length)).length
  else 0)

/-- All three filter checkboxes checked. -/
def allOn : Filters := ⟨true, true, true⟩

/-- A record with a finite latitude far outside the geodetic range. -/
def badRecord : DataPoint := ⟨1000, 0, none, none⟩

/-- An idle DataHandler holding a previously loaded snapshot. -/
def idleDH : DHState :=
  ⟨some ⟨[⟨1, 2, some 0, some "normal"⟩], [], []⟩, some "t0", false⟩

/-- A DataHandler with a load in flight. -/
def busyDH : DHState :=
  ⟨some ⟨[⟨1, 2, some 0, some "normal"⟩], [], []⟩, some "t0", true⟩

/-- A map state owning one AIS marker that is not attached to the markers
layer (reached by unchecking the AIS filter after a snapshot was applied). -/
def detachedState : MapVizState where
  aisMarkers := [⟨(10, 20)⟩]
  adsbMarkers := []
  coveragePolygons := []
  markersAttached := ∅
  coverageAttached := ∅
  currentZoom := 8
  mapCenter := (0, 0)
  camera := Camera.view (0, 0) 8

/-- A map state owning no entities at all; its attached sets coincide with
those of detachedState. -/
def emptyOwnedState : MapVizState where
  aisMarkers := []
  adsbMarkers := []
  coveragePolygons := []
  markersAttached := ∅
  coverageAttached := ∅
  currentZoom := 8
  mapCenter := (0, 0)
  camera := Camera.view (0, 0) 8

/-- A map state owning one attached AIS marker, consistent with all filters
checked. -/
def oneMarkerState : MapVizState where
  aisMarkers := [⟨(1, 2)⟩]
  adsbMarkers := []
  coveragePolygons := []
  markersAttached := {EntityKey.ais 0}
  coverageAttached := ∅
  currentZoom := 8
  mapCenter := (0, 0)
  camera := Camera.view (0, 0) 8

/-- The target attachment set of the markers layer for given owned marker
collections and filter flags. -/
def pointTarget (st : MapVizState) (f : Filters) : Finset EntityKey :=
  (if f.ais then aisKeySet st.aisMarkers.length else ∅) ∪
  (if f.adsb then adsbKeySet st.adsbMarkers.length else ∅)

/-- The target attachment set of the coverage layer group for given owned
polygons and filter flags. -/
def covTarget (st : MapVizState) (f : Filters) : Finset EntityKey :=
  if f.coverage then (covKeyList st.coveragePolygons).toFinset else ∅

/-- The visibility double toggle of claim C7: set the category flag to false,
reconcile, set it back to true, reconcile. -/
def afterToggle (st : MapVizState) (f : Filters) (c : Category) : MapVizState :=
  updateVisibility (updateVisibility st (f.set c false)) (f.set c true)

/-- Keys of the entities of one category that a snapshot produces when the
category flag is true. -/
def fullKeySet (c : Category) (aisData adsbData : List DataPoint)
    (coverageData : List CoverageLayer) : Finset EntityKey :=
  match c with
  | .ais => aisKeySet aisData.length
  | .adsb => adsbKeySet adsbData.length
  | .coverage => (covKeyList (coverageEntriesFrom 0 coverageData)).toFinset

/-- A point inside a bounding box. -/
def Bounds.contains (b : Bounds) (p : ℚ × ℚ) : Prop :=
  b.minLat ≤ p.1 ∧ p.1 ≤ b.maxLat ∧ b.minLng ≤ p.2 ∧ p.2 ≤ b.maxLng

/-- One bounding box inside another. -/
def Bounds.within (b B : Bounds) : Prop :=
  B.minLat ≤ b.minLat ∧ b.maxLat ≤ B.maxLat ∧ B.minLng ≤ b.minLng ∧ b.maxLng ≤ B.maxLng

/-! ## Helper lemmas -/

theorem ais_injective : Function.Injective EntityKey.ais := by
  intro a b h
  simpa using h

theorem adsb_injective : Function.Injective EntityKey.adsb := by
  intro a b h
  simpa using h

theorem coverage_injective : Function.Injective EntityKey.coverage := by
  intro a b h
  simpa using h

theorem mem_aisKeySet {k : EntityKey} {n : Nat} :
    k ∈ aisKeySet n ↔ ∃ i, i < n ∧ EntityKey.ais i = k := by
  simp [aisKeySet]

theorem mem_adsbKeySet {k : EntityKey} {n : Nat} :
    k ∈ adsbKeySet n ↔ ∃ i, i < n ∧ EntityKey.adsb i = k := by
  simp [adsbKeySet]

theorem mem_covKeySet {k : EntityKey} {entries : List (Nat × Polygon)} :
    k ∈ (covKeyList entries).toFinset ↔ ∃ p ∈ entries, EntityKey.coverage p.1 = k := by
  simp [covKeyList]

theorem aisKeySet_card (n : Nat) : (aisKeySet n).card = n := by
  rw [aisKeySet, Finset.card_image_of_injective _ ais_injective, Finset.card_range]

theorem adsbKeySet_card (n : Nat) : (adsbKeySet n).card = n := by
  rw [adsbKeySet, Finset.card_image_of_injective _ adsb_injective, Finset.card_range]

theorem aisKeySet_disjoint_adsbKeySet (n m : Nat) :
    Disjoint (aisKeySet n) (adsbKeySet m) := by
  rw [Finset.disjoint_left]
  intro k hk hk2
  rcases mem_aisKeySet.1 hk with ⟨i, _, hi⟩
  rcases mem_adsbKeySet.1 hk2 with ⟨j, _, hj⟩
  have := hj.trans hi.symm
  simp at this

theorem createCoverageLayer_eq_some {c : CoverageLayer} (h : 3 ≤ c.coordinates.length) :
    createCoverageLayer c = some ⟨c.coordinates.map fun q => (q.2, q.1)⟩ := by
  unfold createCoverageLayer
  rw [if_neg (by omega)]

theorem createCoverageLayer_eq_none {c : CoverageLayer} (h : c.coordinates.length < 3) :
    createCoverageLayer c = none := by
  unfold createCoverageLayer
  rw [if_pos h]

theorem coverageEntriesFrom_length (i : Nat) (l : List CoverageLayer) :
    (coverageEntriesFrom i l).length =
      (l.filter fun c => decide (3 ≤ c.coordinates.length)).length := by
  induction l generalizing i with
  | nil => rfl
  | cons c t ih =>
      by_cases h3 : 3 ≤ c.coordinates.length
      · rw [coverageEntriesFrom, createCoverageLayer_eq_some h3]
        simp [List.filter_cons, h3, ih]
      · rw [coverageEntriesFrom, createCoverageLayer_eq_none (by omega)]
        simp [List.filter_cons, h3, ih]

theorem coverageEntriesFrom_fst_ge (i : Nat) (l : List CoverageLayer) :
    ∀ p ∈ coverageEntriesFrom i l, i ≤ p.1 := by
  induction l generalizing i with
  | nil => simp [coverageEntriesFrom]
  | cons c t ih =>
      intro p hp
      rw [coverageEntriesFrom] at hp
      split at hp
      · rcases List.mem_cons.1 hp with h | h
        · rw [h]
        · exact le_trans (Nat.le_succ i) (ih (i + 1) p h)
      · exact le_trans (Nat.le_succ i) (ih (i + 1) p hp)

theorem coverageEntriesFrom_keys_nodup (i : Nat) (l : List CoverageLayer) :
    ((coverageEntriesFrom i l).map Prod.fst).Nodup := by
  induction l generalizing i with
  | nil => simp [coverageEntriesFrom]
  | cons c t ih =>
      rw [coverageEntriesFrom]
      split
      · refine List.nodup_cons.2 ⟨?_, ih (i + 1)⟩
        intro hmem
        rcases List.mem_map.1 hmem with ⟨p, hp, hfst⟩
        have := coverageEntriesFrom_fst_ge (i + 1) t p hp
        omega
      · exact ih (i + 1)

theorem covKeyList_nodup (i : Nat) (l : List CoverageLayer) :
    (covKeyList (coverageEntriesFrom i l)).Nodup := by
  have h1 := coverageEntriesFrom_keys_nodup i l
  have h2 : covKeyList (coverageEntriesFrom i l) =
      ((coverageEntriesFrom i l).map Prod.fst).map EntityKey.coverage := by
    simp [covKeyList, List.map_map]
  rw [h2]
  exact h1.map coverage_injective

theorem covKeySet_card (i : Nat) (l : List CoverageLayer) :
    ((covKeyList (coverageEntriesFrom i l)).toFinset).card =
      (l.filter fun c => decide (3 ≤ c.coordinates.length)).length := by
  rw [List.toFinset_card_of_nodup (covKeyList_nodup i l)]
  simp [covKeyList, coverageEntriesFrom_length]

theorem clearMap_eq (st : MapVizState) (h : wellFormed st) :
    clearMap st =
      { aisMarkers := [], adsbMarkers := [], coveragePolygons := [],
        markersAttached := ∅, coverageAttached := ∅,
        currentZoom := st.currentZoom, mapCenter := st.mapCenter, camera := st.camera } := by
  obtain ⟨h1, h2⟩ := h
  have e1 : st.markersAttached \
      (aisKeySet st.aisMarkers.length ∪ adsbKeySet st.adsbMarkers.length) = ∅ :=
    Finset.sdiff_eq_empty_iff_subset.2 h1
  have e2 : st.coverageAttached \ (covKeyList st.coveragePolygons).toFinset = ∅ :=
    Finset.sdiff_eq_empty_iff_subset.2 h2
  simp [clearMap, e1, e2]

theorem fitMapToBounds_fields (st : MapVizState) :
    (fitMapToBounds st).aisMarkers = st.aisMarkers ∧
    (fitMapToBounds st).adsbMarkers = st.adsbMarkers ∧
    (fitMapToBounds st).coveragePolygons = st.coveragePolygons ∧
    (fitMapToBounds st).markersAttached = st.markersAttached ∧
    (fitMapToBounds st).coverageAttached = st.coverageAttached := by
  unfold fitMapToBounds
  cases latLngBounds (markerLatLngs st) <;> simp

theorem updateMapData_shape (st : MapVizState) (f : Filters)
    (a b : List DataPoint) (cov : List CoverageLayer) (h : wellFormed st) :
    ∃ cam, updateMapData st f a b cov =
      { aisMarkers := (if f.ais then a.map createAisMarker else []),
        adsbMarkers := (if f.adsb then b.map createAdsbMarker else []),
        coveragePolygons := (if f.coverage then coverageEntriesFrom 0 cov else []),
        markersAttached :=
          (if f.ais then aisKeySet a.length else ∅) ∪
            (if f.adsb then adsbKeySet b.length else ∅),
        coverageAttached :=
          (if f.coverage then (covKeyList (coverageEntriesFrom 0 cov)).toFinset else ∅),
        currentZoom := st.currentZoom, mapCenter := st.mapCenter, camera := cam } := by
  unfold updateMapData
  rw [clearMap_eq st h]
  rcases f with ⟨fa, fb, fc⟩
  cases fa <;> cases fb <;> cases fc <;>
    simp only [Filters.ais, Filters.adsb, Filters.coverage, if_true, if_false,
      Bool.false_eq_true, Finset.empty_union, Finset.union_empty] <;>
    split <;>
    first
    | exact ⟨_, rfl⟩
    | (unfold fitMapToBounds; split <;> exact ⟨_, rfl⟩)

theorem updateMapData_spec (st : MapVizState) (f : Filters)
    (a b : List DataPoint) (cov : List CoverageLayer) (h : wellFormed st) :
    (updateMapData st f a b cov).aisMarkers = (if f.ais then a.map createAisMarker else []) ∧
    (updateMapData st f a b cov).adsbMarkers = (if f.adsb then b.map createAdsbMarker else []) ∧
    (updateMapData st f a b cov).coveragePolygons =
      (if f.coverage then coverageEntriesFrom 0 cov else []) ∧
    (updateMapData st f a b cov).markersAttached =
      (if f.ais then aisKeySet a.length else ∅) ∪
        (if f.adsb then adsbKeySet b.length else ∅) ∧
    (updateMapData st f a b cov).coverageAttached =
      (if f.coverage then (covKeyList (coverageEntriesFrom 0 cov)).toFinset else ∅) := by
  obtain ⟨cam, hcam⟩ := updateMapData_shape st f a b cov h
  rw [hcam]
  exact ⟨rfl, rfl, rfl, rfl, rfl⟩

theorem updateMapData_wellFormed (st : MapVizState) (f : Filters)
    (a b : List DataPoint) (cov : List CoverageLayer) (h : wellFormed st) :
    wellFormed (updateMapData st f a b cov) := by
  obtain ⟨h1, h2, h3, h4, h5⟩ := updateMapData_spec st f a b cov h
  constructor
  · rw [h4, h1, h2]
    cases hfa : f.ais <;> cases hfb : f.adsb <;> simp [hfa, hfb]
  · rw [h5, h3]
    cases hfc : f.coverage <;> simp [hfc]

theorem updateVisibility_owned (st : MapVizState) (f : Filters) :
    (updateVisibility st f).aisMarkers = st.aisMarkers ∧
    (updateVisibility st f).adsbMarkers = st.adsbMarkers ∧
    (updateVisibility st f).coveragePolygons = st.coveragePolygons :=
  ⟨rfl, rfl, rfl⟩

theorem updateVisibility_normalized (st : MapVizState) (f g : Filters)
    (hm : st.markersAttached = pointTarget st g)
    (hc : st.coverageAttached = covTarget st g) :
    (updateVisibility st f).markersAttached = pointTarget st f ∧
    (updateVisibility st f).coverageAttached = covTarget st f := by
  have hd : ∀ k, k ∈ aisKeySet st.aisMarkers.length → k ∉ adsbKeySet st.adsbMarkers.length :=
    fun k hk => Finset.disjoint_left.1 (aisKeySet_disjoint_adsbKeySet _ _) hk
  constructor
  · simp only [updateVisibility]
    rw [hm]
    simp only [pointTarget]
    ext k
    have := hd k
    split_ifs <;>
      simp only [Finset.mem_union, Finset.mem_sdiff, Finset.not_mem_empty] <;> tauto
  · simp only [updateVisibility]
    rw [hc]
    simp only [covTarget]
    ext k
    split_ifs <;>
      simp only [Finset.mem_union, Finset.mem_sdiff, Finset.not_mem_empty] <;> tauto

theorem Bounds.within_trans {a b c : Bounds} (h1 : Bounds.within a b)
    (h2 : Bounds.within b c) : Bounds.within a c :=
  ⟨le_trans h2.1 h1.1, le_trans h1.2.1 h2.2.1,
   le_trans h2.2.2.1 h1.2.2.1, le_trans h1.2.2.2 h2.2.2.2⟩

theorem Bounds.contains_mono {b B : Bounds} {p : ℚ × ℚ} (h : Bounds.within b B)
    (hp : Bounds.contains b p) : Bounds.contains B p :=
  ⟨le_trans h.1 hp.1, le_trans hp.2.1 h.2.1,
   le_trans h.2.2.1 hp.2.2.1, le_trans hp.2.2.2 h.2.2.2⟩

theorem boundsExtend_within (b : Bounds) (p : ℚ × ℚ) :
    Bounds.within b (boundsExtend b p) :=
  ⟨min_le_left _ _, le_max_left _ _, min_le_left _ _, le_max_left _ _⟩

theorem boundsExtend_contains_self (b : Bounds) (p : ℚ × ℚ) :
    Bounds.contains (boundsExtend b p) p :=
  ⟨min_le_right _ _, le_max_right _ _, min_le_right _ _, le_max_right _ _⟩

theorem boundsExtend_le {b B : Bounds} {p : ℚ × ℚ} (h : Bounds.within b B)
    (hp : Bounds.contains B p) : Bounds.within (boundsExtend b p) B :=
  ⟨le_min h.1 hp.1, max_le h.2.1 hp.2.1,
   le_min h.2.2.1 hp.2.2.1, max_le h.2.2.2 hp.2.2.2⟩

theorem foldl_boundsExtend_spec (ps : List (ℚ × ℚ)) (acc : Bounds) :
    Bounds.within acc (ps.foldl boundsExtend acc) ∧
    (∀ p ∈ ps, Bounds.contains (ps.foldl boundsExtend acc) p) ∧
    (∀ B, Bounds.within acc B → (∀ p ∈ ps, Bounds.contains B p) →
      Bounds.within (ps.foldl boundsExtend acc) B) := by
  induction ps generalizing acc with
  | nil =>
      refine ⟨⟨le_refl _, le_refl _, le_refl _, le_refl _⟩, ?_, ?_⟩
      · intro p hp
        simp at hp
      · intro B hB _
        exact hB
  | cons p t ih =>
      obtain ⟨ih1, ih2, ih3⟩ := ih (boundsExtend acc p)
      refine ⟨Bounds.within_trans (boundsExtend_within acc p) ih1, ?_, ?_⟩
      · intro q hq
        rcases List.mem_cons.1 hq with h | h
        · rw [h]
          exact Bounds.contains_mono ih1 (boundsExtend_contains_self acc p)
        · exact ih2 q h
      · intro B hB hall
        refine ih3 B (boundsExtend_le hB (hall p (List.mem_cons_self p t))) ?_
        intro q hq
        exact hall q (List.mem_cons_of_mem p hq)

theorem latLngBounds_eq_none_iff (ps : List (ℚ × ℚ)) :
    latLngBounds ps = none ↔ ps = [] := by
  cases ps <;> simp [latLngBounds]

theorem latLngBounds_spec (ps : List (ℚ × ℚ)) (b : Bounds)
    (h : latLngBounds ps = some b) :
    (∀ p ∈ ps, Bounds.contains b p) ∧
    (∀ B, (∀ p ∈ ps, Bounds.contains B p) → Bounds.within b B) := by
  cases ps with
  | nil => simp [latLngBounds] at h
  | cons p t =>
      simp only [latLngBounds, Option.some.injEq] at h
      obtain ⟨h1, h2, h3⟩ := foldl_boundsExtend_spec t ⟨p.1, p.1, p.2, p.2⟩
      rw [← h]
      constructor
      · intro q hq
        rcases List.mem_cons.1 hq with hh | hh
        · rw [hh]
          exact Bounds.contains_mono h1 ⟨le_refl _, le_refl _, le_refl _, le_refl _⟩
        · exact h2 q hh
      · intro B hB
        have hp := hB p (List.mem_cons_self p t)
        refine h3 B ⟨hp.1, hp.2.1, hp.2.2.1, hp.2.2.2⟩ ?_
        intro q hq
        exact hB q (List.mem_cons_of_mem p hq)

theorem countCacheClear_append (l1 l2 : List NetEvent) :
    countCacheClear (l1 ++ l2) = countCacheClear l1 + countCacheClear l2 := by
  induction l1 with
  | nil => simp [countCacheClear]
  | cons e t ih =>
      cases e with
      | healthCheck => simp [countCacheClear, ih]
      | systemInfo => simp [countCacheClear, ih]
      | fetchData force => simp [countCacheClear, ih]
      | statsFetch => simp [countCacheClear, ih]
      | cacheClear =>
          simp [countCacheClear, ih]
          omega

theorem countFetches_append (l1 l2 : List NetEvent) :
    countFetches (l1 ++ l2) = countFetches l1 + countFetches l2 := by
  induction l1 with
  | nil => simp [countFetches]
  | cons e t ih =>
      cases e with
      | healthCheck => simp [countFetches, ih]
      | systemInfo => simp [countFetches, ih]
      | fetchData force =>
          simp [countFetches, ih]
          omega
      | statsFetch => simp [countFetches, ih]
      | cacheClear => simp [countFetches, ih]

theorem Filters.set_true_of_get {f : Filters} {c : Category} (h : f.get c = true) :
    f.set c true = f := by
  cases c <;> rcases f with ⟨fa, fb, fc⟩ <;> simp_all [Filters.set, Filters.get]

theorem pointTarget_updateVisibility (st : MapVizState) (g f : Filters) :
    pointTarget (updateVisibility st g) f = pointTarget st f := rfl

theorem covTarget_updateVisibility (st : MapVizState) (g f : Filters) :
    covTarget (updateVisibility st g) f = covTarget st f := rfl

/-! ## Claims -/

/-- Claim C1: a loadData call made while a previous load is still in progress
(isProcessing true) returns the busy failure result immediately, performs no
network fetch, and leaves the whole DataHandler state - in particular the held
processedData snapshot - unchanged. -/
theorem claim_C1 (st : DHState) (resp : FetchOutcome) (h : st.isProcessing = true) :
    loadData st resp = ⟨LoadOutcome.busy, false, st⟩ := by
  simp [loadData, h]

/-- Witness for C1 at a concrete in-flight DataHandler. -/
theorem claim_C1_witness :
    loadData busyDH (FetchOutcome.ok ⟨[], [], []⟩ "t1") = ⟨LoadOutcome.busy, false, busyDH⟩ :=
  claim_C1 busyDH (FetchOutcome.ok ⟨[], [], []⟩ "t1") rfl

/-- Claim C4: isDataPointOnline is true iff the timestamp is present and
now minus the timestamp is strictly below 24 hours (in milliseconds); an
absent timestamp yields false, and an age of exactly 24 hours or more yields
false, since no present timestamp at that age satisfies the inequality. -/
theorem claim_C4 (ts : Option Int) (now : Int) :
    (isDataPointOnline ts now = true ↔
      ∃ t, ts = some t ∧ now - t < 24 * 60 * 60 * 1000) ∧
    isDataPointOnline none now = false := by
  refine ⟨?_, rfl⟩
  cases ts with
  | none => simp [isDataPointOnline]
  | some t =>
      simp only [isDataPointOnline, decide_eq_true_eq, Option.some.injEq]
      rw [div_lt_iff₀ (by norm_num : (0 : ℚ) < 1000 * 60 * 60)]
      constructor
      · intro h
        refine ⟨t, rfl, ?_⟩
        have h2 : ((now - t : Int) : ℚ) < 24 * 60 * 60 * 1000 := by linarith
        exact_mod_cast h2
      · rintro ⟨t2, ht2, h⟩
        rw [← ht2] at h
        have h2 : ((now - t : Int) : ℚ) < 24 * 60 * 60 * 1000 := by exact_mod_cast h
        linarith

/-- Claim C5: a loadData call that starts while idle and fails (server rejection or
network error/timeout) returns the failure result, leaves the held snapshot
and lastUpdate untouched, and isProcessing is false after every loadData call
that starts while idle, so the next loadData call is never answered busy. -/
theorem claim_C5 (st : DHState) (r r2 : FetchOutcome) (h : st.isProcessing = false)
    (hf : r.failed = true) :
    (loadData st r).result = LoadOutcome.failed ∧
    (loadData st r).state.processedData = st.processedData ∧
    (loadData st r).state.lastUpdate = st.lastUpdate ∧
    (loadData st r).state.isProcessing = false ∧
    (∀ r3, (loadData st r3).state.isProcessing = false) ∧
    (loadData (loadData st r).state r2).result ≠ LoadOutcome.busy := by
  have hall : ∀ r3, (loadData st r3).state.isProcessing = false := by
    intro r3
    cases r3 <;> simp [loadData, h]
  cases r with
  | ok d lu => simp [FetchOutcome.failed] at hf
  | serverFail =>
      refine ⟨by simp [loadData, h], by simp [loadData, h], by simp [loadData, h],
        hall _, hall, ?_⟩
      cases r2 <;> simp [loadData, h]
  | netError =>
      refine ⟨by simp [loadData, h], by simp [loadData, h], by simp [loadData, h],
        hall _, hall, ?_⟩
      cases r2 <;> simp [loadData, h]

/-- Witness for C5: a timed-out fetch on a concrete idle DataHandler leaves
its held snapshot untouched. -/
theorem claim_C5_witness :
    (loadData idleDH FetchOutcome.netError).state.processedData = idleDH.processedData :=
  (claim_C5 idleDH FetchOutcome.netError FetchOutcome.netError rfl rfl).2.1

/-- Claim C3 counterexample: an unrecognized status string is formatted with the
error label, but the marker-color derivation gives it the same color as a
normal record and not the error color, so the classification is not
error-fallthrough in every place it is applied. -/
theorem claim_C3_counterexample :
    formatStatusLabel (some "unknown") = "错误" ∧
    aisMarkerColor (some "unknown") true = aisMarkerColor (some "normal") true ∧
    aisMarkerColor (some "unknown") true ≠ aisMarkerColor (some "error") true ∧
    adsbMarkerColor (some "unknown") true = adsbMarkerColor (some "normal") true ∧
    adsbMarkerColor (some "unknown") true ≠ adsbMarkerColor (some "error") true := by
  refine ⟨rfl, rfl, ?_, rfl, ?_⟩ <;> decide

/-- Claim C3 amended: the status-label formatting maps a status to normal iff it is
exactly normal, to warning iff exactly warning, and to error otherwise
(including absent); the marker-color derivations instead match error and
warning literally and give every other value, including absent or
unrecognized, the normal-tier online/offline base color. -/
theorem claim_C3_amended (s : Option String) (b : Bool) :
    (formatStatusLabel s = "正常" ↔ s = some "normal") ∧
    (formatStatusLabel s = "待复核" ↔ s = some "warning") ∧
    (formatStatusLabel s = "错误" ↔ s ≠ some "normal" ∧ s ≠ some "warning") ∧
    (aisMarkerColor s b = "#ff0000" ↔ s = some "error") ∧
    (aisMarkerColor s b = "#ff9900" ↔ s = some "warning") ∧
    (aisMarkerColor s b = (if b then "#3498db" else "#95a5a6") ↔
      s ≠ some "error" ∧ s ≠ some "warning") ∧
    (adsbMarkerColor s b = "#ff0000" ↔ s = some "error") ∧
    (adsbMarkerColor s b = "#ff9900" ↔ s = some "warning") ∧
    (adsbMarkerColor s b = (if b then "#e74c3c" else "#95a5a6") ↔
      s ≠ some "error" ∧ s ≠ some "warning") := by
  unfold formatStatusLabel aisMarkerColor adsbMarkerColor
  cases b <;> split_ifs <;> simp_all

/-- Claim C9 is a code bug: after the user zooms to level 12, resetView restores the
construction-time center but keeps zoom 12, because the zoomend listener has
overwritten currentZoom; the construction-time zoom was 8. -/
theorem claim_C9_bug :
    (resetView (zoomTo initializeMap 12)).camera =
      Camera.view initializeMap.mapCenter 12 ∧
    initializeMap.camera = Camera.view initializeMap.mapCenter initializeMap.currentZoom ∧
    initializeMap.currentZoom = 8 ∧
    Camera.view initializeMap.mapCenter 12 ≠ Camera.view initializeMap.mapCenter 8 := by
  refine ⟨rfl, rfl, rfl, ?_⟩
  intro h
  simp at h

/-- Claim C6: when the backend is healthy and the first load fails, the run issues
exactly the trace health check, system info, one forced fetch, one
cache-clear, and then exactly one forced retry fetch iff the cache-clear
request succeeded; nothing follows the retry, the trace holds exactly one
cache-clear, at most two fetches, and every run whatsoever issues at most one
cache-clear. -/
theorem claim_C6 (st : DHState) (b : Backend) (h : st.isProcessing = false)
    (hb : b.healthy = true) (hf : b.fetch1.failed = true) :
    (checkBackendAndLoadData st b).1 =
      [NetEvent.healthCheck, NetEvent.systemInfo, NetEvent.fetchData true,
        NetEvent.cacheClear] ++
        (if b.cacheClearOk then [NetEvent.fetchData true] else []) ∧
    countCacheClear (checkBackendAndLoadData st b).1 = 1 ∧
    countFetches (checkBackendAndLoadData st b).1 ≤ 2 ∧
    (∀ st2 b2, countCacheClear (checkBackendAndLoadData st2 b2).1 ≤ 1) := by
  have hglobal : ∀ st2 b2, countCacheClear (checkBackendAndLoadData st2 b2).1 ≤ 1 := by
    intro st2 b2
    unfold checkBackendAndLoadData
    split_ifs <;>
      simp [countCacheClear_append, countCacheClear] <;>
      split_ifs <;>
      simp [countCacheClear_append, countCacheClear]
  have htrace : (checkBackendAndLoadData st b).1 =
      [NetEvent.healthCheck, NetEvent.systemInfo, NetEvent.fetchData true,
        NetEvent.cacheClear] ++
        (if b.cacheClearOk then [NetEvent.fetchData true] else []) := by
    have hstep : loadData st b.fetch1 =
        ⟨LoadOutcome.failed, true, { st with isProcessing := false }⟩ := by
      cases hbf : b.fetch1 with
      | ok d lu =>
          rw [hbf] at hf
          simp [FetchOutcome.failed] at hf
      | serverFail => simp [loadData, h]
      | netError => simp [loadData, h]
    have hstep2 : ∀ r, (loadData { st with isProcessing := false } r).didFetch = true := by
      intro r
      cases r <;> simp [loadData]
    unfold checkBackendAndLoadData
    rw [if_neg (by simp [hb])]
    rw [hstep]
    by_cases hclear : b.cacheClearOk <;> simp [hclear, hstep2]
  refine ⟨htrace, ?_, ?_, hglobal⟩
  · rw [htrace]
    by_cases hclear : b.cacheClearOk <;>
      simp [hclear, countCacheClear_append, countCacheClear]
  · rw [htrace]
    by_cases hclear : b.cacheClearOk <;>
      simp [hclear, countFetches_append, countFetches]

/-- Witness for C6 on a concrete idle DataHandler against a backend that
rejects the first fetch and accepts the cache-clear. -/
theorem claim_C6_witness :
    countCacheClear (checkBackendAndLoadData idleDH
      ⟨true, FetchOutcome.serverFail, true, FetchOutcome.serverFail⟩).1 = 1 :=
  (claim_C6 idleDH ⟨true, FetchOutcome.serverFail, true, FetchOutcome.serverFail⟩
    rfl rfl rfl).2.1

theorem updateMapData_normalized (st : MapVizState) (f : Filters)
    (a b : List DataPoint) (cov : List CoverageLayer) (h : wellFormed st) :
    (updateMapData st f a b cov).markersAttached =
      pointTarget (updateMapData st f a b cov) f ∧
    (updateMapData st f a b cov).coverageAttached =
      covTarget (updateMapData st f a b cov) f := by
  obtain ⟨h1, h2, h3, h4, h5⟩ := updateMapData_spec st f a b cov h
  constructor
  · rw [h4, pointTarget, h1, h2]
    cases hfa : f.ais <;> cases hfb : f.adsb <;> simp [hfa, hfb]
  · rw [h5, covTarget, h3]
    cases hfc : f.coverage <;> simp [hfc]

theorem attachedOfCategory_of_target (st : MapVizState) (na nb : Nat)
    (e : List (Nat × Polygon)) (fa fb fc : Bool)
    (hm : st.markersAttached =
      (if fa then aisKeySet na else ∅) ∪ (if fb then adsbKeySet nb else ∅))
    (hc : st.coverageAttached = (if fc then (covKeyList e).toFinset else ∅)) :
    attachedOfCategory st Category.ais = (if fa then aisKeySet na else ∅) ∧
    attachedOfCategory st Category.adsb = (if fb then adsbKeySet nb else ∅) ∧
    attachedOfCategory st Category.coverage =
      (if fc then (covKeyList e).toFinset else ∅) := by
  refine ⟨?_, ?_, ?_⟩ <;>
    · ext k
      simp only [attachedOfCategory, Finset.mem_filter, hm, hc, Finset.mem_union]
      cases fa <;> cases fb <;> cases fc <;> cases k <;>
        simp [mem_aisKeySet, mem_adsbKeySet, List.mem_toFinset, covKeyList, keyCategory]

/-- Claim C2 counterexample: a snapshot holding a single vessel record with a
finite latitude of 1000, far outside geodetic range, is rendered as one
entity by updateMapData, whereas the claimed count over valid records is
zero; no record-level validity filtering exists. -/
theorem claim_C2_counterexample :
    renderedCount (updateMapData initializeMap allOn [badRecord] [] []) = 1 ∧
    specExpectedCount allOn [badRecord] [] [] = 0 := by
  constructor <;> decide

/-- Claim C2 amended: from any well-formed state, updateMapData renders exactly the
records of each point category whose flag is true - with no validity check on
their coordinates - plus the coverage regions with at least 3 boundary points
whose flag is true; under-3-point regions are skipped without aborting the
rest of the snapshot. -/
theorem claim_C2_amended (st : MapVizState) (f : Filters)
    (a b : List DataPoint) (cov : List CoverageLayer) (h : wellFormed st) :
    renderedCount (updateMapData st f a b cov) =
      (if f.ais then a.length else 0) + (if f.adsb then b.length else 0) +
      (if f.coverage then
        (cov.filter fun c => decide (3 ≤ c.coordinates.length)).length
      else 0) := by
  obtain ⟨h1, h2, h3, h4, h5⟩ := updateMapData_spec st f a b cov h
  unfold renderedCount
  rw [h4, h5]
  have hcard1 :
      ((if f.ais then aisKeySet a.length else ∅) ∪
        (if f.adsb then adsbKeySet b.length else ∅)).card =
      (if f.ais then a.length else 0) + (if f.adsb then b.length else 0) := by
    cases hfa : f.ais <;> cases hfb : f.adsb <;>
      simp [Finset.card_union_of_disjoint (aisKeySet_disjoint_adsbKeySet _ _),
        aisKeySet_card, adsbKeySet_card]
  rw [hcard1]
  cases hfc : f.coverage <;> simp [covKeySet_card]

/-- Witness for C2 amended at a concrete state and snapshot. -/
theorem claim_C2_amended_witness :
    renderedCount (updateMapData initializeMap allOn [badRecord] [] []) =
      (if allOn.ais then [badRecord].length else 0) +
      (if allOn.adsb then ([] : List DataPoint).length else 0) +
      (if allOn.coverage then
        (([] : List CoverageLayer).filter fun c => decide (3 ≤ c.coordinates.length)).length
      else 0) :=
  claim_C2_amended initializeMap allOn [badRecord] [] []
    ⟨Finset.empty_subset _, Finset.empty_subset _⟩

/-- Claim C7: from any state whose attachment sets agree with the current filters
and whose flag for category c is on, toggling the flag off and back on
(running the visibility reconciliation after each change) destroys and
creates no owned entity and restores exactly the attached-entity sets that
existed before the toggle. -/
theorem claim_C7 (st : MapVizState) (f : Filters) (c : Category)
    (hget : f.get c = true)
    (hm : st.markersAttached = pointTarget st f)
    (hc : st.coverageAttached = covTarget st f) :
    (updateVisibility st (f.set c false)).aisMarkers = st.aisMarkers ∧
    (updateVisibility st (f.set c false)).adsbMarkers = st.adsbMarkers ∧
    (updateVisibility st (f.set c false)).coveragePolygons = st.coveragePolygons ∧
    (afterToggle st f c).aisMarkers = st.aisMarkers ∧
    (afterToggle st f c).adsbMarkers = st.adsbMarkers ∧
    (afterToggle st f c).coveragePolygons = st.coveragePolygons ∧
    (afterToggle st f c).markersAttached = st.markersAttached ∧
    (afterToggle st f c).coverageAttached = st.coverageAttached := by
  unfold afterToggle
  have s1 := updateVisibility_normalized st (f.set c false) f hm hc
  have hm1 : (updateVisibility st (f.set c false)).markersAttached =
      pointTarget (updateVisibility st (f.set c false)) (f.set c false) := by
    rw [s1.1, pointTarget_updateVisibility]
  have hc1 : (updateVisibility st (f.set c false)).coverageAttached =
      covTarget (updateVisibility st (f.set c false)) (f.set c false) := by
    rw [s1.2, covTarget_updateVisibility]
  have s2 := updateVisibility_normalized (updateVisibility st (f.set c false))
    (f.set c true) (f.set c false) hm1 hc1
  refine ⟨rfl, rfl, rfl, rfl, rfl, rfl, ?_, ?_⟩
  · rw [s2.1, pointTarget_updateVisibility, Filters.set_true_of_get hget, ← hm]
  · rw [s2.2, covTarget_updateVisibility, Filters.set_true_of_get hget, ← hc]

/-- Witness for C7 at a concrete state with one attached vessel marker. -/
theorem claim_C7_witness :
    (afterToggle oneMarkerState allOn Category.ais).markersAttached =
      oneMarkerState.markersAttached :=
  (claim_C7 oneMarkerState allOn Category.ais rfl (by decide) (by decide)).2.2.2.2.2.2.1

/-- Claim C8 counterexample: a state owning one vessel marker that is detached from
the markers layer has exactly the attached-entity sets of the empty state,
yet fitMapToBounds computes a nonempty box from it and moves the camera, so
the computed bounds are not a function of the attached point entities. -/
theorem claim_C8_counterexample :
    detachedState.markersAttached = emptyOwnedState.markersAttached ∧
    detachedState.coverageAttached = emptyOwnedState.coverageAttached ∧
    latLngBounds (markerLatLngs detachedState) = some ⟨10, 10, 20, 20⟩ ∧
    latLngBounds (markerLatLngs emptyOwnedState) = none ∧
    fitMapToBounds detachedState ≠ detachedState := by
  refine ⟨rfl, rfl, by decide, rfl, by decide⟩

/-- Claim C8 amended: the bounds computation of fitMapToBounds ranges over exactly
the currently owned point entities (vessel and aircraft markers), attached or
not; it never consults coverage polygons, yields the explicit empty value
exactly when zero point entities are owned - in which case the fit is a
no-op - and when it yields a box, the box contains every owned marker
position and is contained in every box that does. -/
theorem claim_C8_amended (st : MapVizState) :
    (latLngBounds (markerLatLngs st) = none ↔
      st.aisMarkers = [] ∧ st.adsbMarkers = []) ∧
    (∀ b, latLngBounds (markerLatLngs st) = some b →
      (∀ p ∈ markerLatLngs st, Bounds.contains b p) ∧
      (∀ B, (∀ p ∈ markerLatLngs st, Bounds.contains B p) → Bounds.within b B)) ∧
    (∀ l, markerLatLngs { st with coveragePolygons := l } = markerLatLngs st) ∧
    (st.aisMarkers = [] → st.adsbMarkers = [] → fitMapToBounds st = st) := by
  refine ⟨?_, ?_, ?_, ?_⟩
  · rw [latLngBounds_eq_none_iff]
    simp [markerLatLngs]
  · intro b hb
    exact latLngBounds_spec _ b hb
  · intro l
    rfl
  · intro h1 h2
    have hnil : markerLatLngs st = [] := by
      simp [markerLatLngs, h1, h2]
    unfold fitMapToBounds
    rw [hnil]
    rfl

/-- Witness for C8 amended: the computed box of a concrete one-marker state
contains the marker, and the empty-owned state yields the empty value with a
no-op fit. -/
theorem claim_C8_amended_witness :
    Bounds.contains ⟨10, 10, 20, 20⟩ ((10 : ℚ), (20 : ℚ)) ∧
    latLngBounds (markerLatLngs emptyOwnedState) = none ∧
    fitMapToBounds emptyOwnedState = emptyOwnedState :=
  ⟨((claim_C8_amended detachedState).2.1 ⟨10, 10, 20, 20⟩ (by decide)).1
      (10, 20) (by decide),
   (claim_C8_amended emptyOwnedState).1.mpr ⟨rfl, rfl⟩,
   (claim_C8_amended emptyOwnedState).2.2.2 rfl rfl⟩

/-- Claim C10: when a category's flag is false at the moment updateMapData runs, no
entities of that category are created at all (owned count zero, attached set
empty); a later visibility reconciliation with that flag turned on changes
nothing at all (so it attaches zero entities of that category); and the
category's records become attached exactly when updateMapData next runs with
the flag true, which attaches the full key set of that category. -/
theorem claim_C10 (st : MapVizState) (f : Filters) (c : Category)
    (a b : List DataPoint) (cov : List CoverageLayer)
    (h : wellFormed st) (hoff : f.get c = false) :
    ownedCount (updateMapData st f a b cov) c = 0 ∧
    attachedOfCategory (updateMapData st f a b cov) c = ∅ ∧
    updateVisibility (updateMapData st f a b cov) (f.set c true) =
      updateMapData st f a b cov ∧
    attachedOfCategory
      (updateMapData (updateMapData st f a b cov) (f.set c true) a b cov) c =
      fullKeySet c a b cov := by
  obtain ⟨h1, h2, h3, h4, h5⟩ := updateMapData_spec st f a b cov h
  have wf1 := updateMapData_wellFormed st f a b cov h
  obtain ⟨g1, g2, g3, g4, g5⟩ :=
    updateMapData_spec (updateMapData st f a b cov) (f.set c true) a b cov wf1
  have tgt1 := attachedOfCategory_of_target (updateMapData st f a b cov)
    a.length b.length (coverageEntriesFrom 0 cov) f.ais f.adsb f.coverage h4 h5
  have tgt3 := attachedOfCategory_of_target
    (updateMapData (updateMapData st f a b cov) (f.set c true) a b cov)
    a.length b.length (coverageEntriesFrom 0 cov)
    (f.set c true).ais (f.set c true).adsb (f.set c true).coverage g4 g5
  have norm := updateMapData_normalized st f a b cov h
  have s2 := updateVisibility_normalized (updateMapData st f a b cov)
    (f.set c true) f norm.1 norm.2
  cases c with
  | ais =>
      have hfa : f.ais = false := hoff
      have hlen : (updateMapData st f a b cov).aisMarkers.length = 0 := by
        rw [h1, hfa]
        simp
      refine ⟨?_, ?_, ?_, ?_⟩
      · simp [ownedCount, h1, hfa]
      · rw [tgt1.1, hfa]
        simp
      · have hpt : pointTarget (updateMapData st f a b cov) (f.set Category.ais true) =
            pointTarget (updateMapData st f a b cov) f := by
          simp only [pointTarget, Filters.set, hlen, hfa]
          simp [aisKeySet]
        have hct : covTarget (updateMapData st f a b cov) (f.set Category.ais true) =
            covTarget (updateMapData st f a b cov) f := rfl
        apply MapVizState.ext
        · rfl
        · rfl
        · rfl
        · rw [s2.1, hpt, ← norm.1]
        · rw [s2.2, hct, ← norm.2]
        · rfl
        · rfl
        · rfl
      · rw [tgt3.1]
        simp [Filters.set, fullKeySet]
  | adsb =>
      have hfb : f.adsb = false := hoff
      have hlen : (updateMapData st f a b cov).adsbMarkers.length = 0 := by
        rw [h2, hfb]
        simp
      refine ⟨?_, ?_, ?_, ?_⟩
      · simp [ownedCount, h2, hfb]
      · rw [tgt1.2.1, hfb]
        simp
      · have hpt : pointTarget (updateMapData st f a b cov) (f.set Category.adsb true) =
            pointTarget (updateMapData st f a b cov) f := by
          simp only [pointTarget, Filters.set, hlen, hfb]
          simp [adsbKeySet]
        have hct : covTarget (updateMapData st f a b cov) (f.set Category.adsb true) =
            covTarget (updateMapData st f a b cov) f := rfl
        apply MapVizState.ext
        · rfl
        · rfl
        · rfl
        · rw [s2.1, hpt, ← norm.1]
        · rw [s2.2, hct, ← norm.2]
        · rfl
        · rfl
        · rfl
      · rw [tgt3.2.1]
        simp [Filters.set, fullKeySet]
  | coverage =>
      have hfc : f.coverage = false := hoff
      have hpoly : (updateMapData st f a b cov).coveragePolygons = [] := by
        rw [h3, hfc]
        simp
      refine ⟨?_, ?_, ?_, ?_⟩
      · simp [ownedCount, h3, hfc]
      · rw [tgt1.2.2, hfc]
        simp
      · have hpt : pointTarget (updateMapData st f a b cov) (f.set Category.coverage true) =
            pointTarget (updateMapData st f a b cov) f := rfl
        have hct : covTarget (updateMapData st f a b cov) (f.set Category.coverage true) =
            covTarget (updateMapData st f a b cov) f := by
          simp only [covTarget, Filters.set, hpoly, hfc]
          simp [covKeyList]
        apply MapVizState.ext
        · rfl
        · rfl
        · rfl
        · rw [s2.1, hpt, ← norm.1]
        · rw [s2.2, hct, ← norm.2]
        · rfl
        · rfl
        · rfl
      · rw [tgt3.2.2]
        simp [Filters.set, fullKeySet]

/-- Witness for C10: with the vessel flag off, a concrete snapshot applied to
the freshly initialized map owns zero vessel markers. -/
theorem claim_C10_witness :
    ownedCount (updateMapData initializeMap ⟨false, true, true⟩ [badRecord] [] [])
      Category.ais = 0 :=
  (claim_C10 initializeMap ⟨false, true, true⟩ Category.ais [badRecord] [] []
    ⟨Finset.empty_subset _, Finset.empty_subset _⟩ rfl).1

end SDFS
